import Mathlib

/-!
Verification of the essence-sse-next core (src/essence-sse.ts) against its
natural-language specification.

The TypeScript source is shallowly embedded:
* JavaScript JSON values are modelled by the inductive `Json`; the platform
  functions `JSON.stringify` and `JSON.parse` (external collaborators, used
  and not reimplemented by the source) are modelled by `jsonStringify` and
  `jsonParse` on that type.
* Chunks written through `TextEncoder.encode` are modelled as the strings
  being encoded (UTF-8 encoding is injective, so string equality captures
  byte equality).
* The `EssenceSSEServer` instance is a state record `EmitterState`; each of
  its methods is a state-transition function.  The `TransformStream` duplex
  is modelled by the writer-side flag `writerClosed` together with the list
  `wire` of chunks actually enqueued to the readable side; `issued` records
  every chunk passed to `RESPONSE_STREAM_WRITER.write`, whether or not the
  stream still accepted it, and `writeErrors`/`closeErrors` count the
  rejected promises a `write`/`close` call on an already-closed writer
  produces.
* The `EssenceSSEClient` event listener is the transition function
  `clientHandleEvent` on `ClientState`; the platform `EventSource`
  demultiplexes by event name, so the listener runs only for events whose
  tag equals the tag fixed at construction, and stops being invoked once
  `source.close()` has run.
-/

/-- Left brace as a string. -/
def lbrace : String := "\x7b"

/-- Right brace as a string. -/
def rbrace : String := "\x7d"

/-- Left brace character. -/
def lbraceChar : Char := Char.ofNat 123

/-- Right brace character. -/
def rbraceChar : Char := Char.ofNat 125

/-- Model of a JavaScript JSON value: the values `JSON.parse` can return and
`JSON.stringify` can serialize.  Numbers are modelled as integers, which
covers every numeric payload appearing in this development. -/
inductive Json where
  | null : Json
  | bool (b : Bool) : Json
  | num (n : Int) : Json
  | str (s : String) : Json
  | arr (xs : List Json) : Json
  | obj (fields : List (String × Json)) : Json
deriving Repr

/-- JSON string escaping as performed by `JSON.stringify` (on the characters
exercised here: quote, backslash and the common control characters). -/
def escapeChar (c : Char) : String :=
  if c = '"' then "\\\""
  else if c = '\\' then "\\\\"
  else if c = '\n' then "\\n"
  else if c = '\r' then "\\r"
  else if c = '\t' then "\\t"
  else if c = Char.ofNat 8 then "\\b"
  else if c = Char.ofNat 12 then "\\f"
  else String.singleton c

/-- Escape every character of a string for JSON output. -/
def escapeString (s : String) : String :=
  String.join (s.toList.map escapeChar)

mutual

/-- Model of `JSON.stringify` restricted to `Json` values: object fields are
emitted in insertion order, exactly as V8 serializes object literals such as
the envelopes built by the source. -/
def jsonStringify : Json → String
  | Json.null => "null"
  | Json.bool b => if b then "true" else "false"
  | Json.num n => toString n
  | Json.str s => "\"" ++ escapeString s ++ "\""
  | Json.arr xs => "[" ++ stringifyElems xs ++ "]"
  | Json.obj fields => lbrace ++ stringifyFields fields ++ rbrace

/-- Comma-separated serialization of array elements. -/
def stringifyElems : List Json → String
  | [] => ""
  | [x] => jsonStringify x
  | x :: xs => jsonStringify x ++ "," ++ stringifyElems xs

/-- Comma-separated serialization of object fields. -/
def stringifyFields : List (String × Json) → String
  | [] => ""
  | [(k, v)] => "\"" ++ escapeString k ++ "\":" ++ jsonStringify v
  | (k, v) :: fs =>
      "\"" ++ escapeString k ++ "\":" ++ jsonStringify v ++ "," ++ stringifyFields fs

end

/-- JSON whitespace skipping. -/
def skipWs : List Char → List Char
  | c :: cs => if c = ' ' ∨ c = '\n' ∨ c = '\t' ∨ c = '\r' then skipWs cs else c :: cs
  | [] => []

/-- Inverse of a JSON escape sequence character (the character after the
backslash). -/
def unescapeChar (c : Char) : Option Char :=
  if c = '"' then some '"'
  else if c = '\\' then some '\\'
  else if c = '/' then some '/'
  else if c = 'n' then some '\n'
  else if c = 'r' then some '\r'
  else if c = 't' then some '\t'
  else if c = 'b' then some (Char.ofNat 8)
  else if c = 'f' then some (Char.ofNat 12)
  else none

/-- Parse the body of a JSON string after the opening quote, returning the
decoded string and the input remaining after the closing quote. -/
def parseStrAux : List Char → Option (String × List Char)
  | [] => none
  | '"' :: rest => some ("", rest)
  | '\\' :: e :: rest =>
      match unescapeChar e, parseStrAux rest with
      | some c, some (s, r) => some (String.singleton c ++ s, r)
      | _, _ => none
  | c :: rest =>
      match parseStrAux rest with
      | some (s, r) => some (String.singleton c ++ s, r)
      | none => none

/-- Accumulate a run of decimal digits. -/
def parseDigitsAux : List Char → Nat → Nat × List Char
  | c :: cs, acc =>
      if c.isDigit then parseDigitsAux cs (acc * 10 + (c.toNat - 48)) else (acc, c :: cs)
  | [], acc => (acc, [])

/-- Parse a nonempty run of decimal digits as a natural number. -/
def parseNat (cs : List Char) : Option (Nat × List Char) :=
  match cs with
  | c :: _ => if c.isDigit then some (parseDigitsAux cs 0) else none
  | [] => none

mutual

/-- Model of `JSON.parse` (one value): fueled recursive-descent parser over
the `Json` grammar.  Returns the parsed value and the remaining input, or
`none` exactly when `JSON.parse` would throw a `SyntaxError`. -/
def parseValue : Nat → List Char → Option (Json × List Char)
  | 0, _ => none
  | Nat.succ fuel, cs =>
    match skipWs cs with
    | [] => none
    | c :: rest =>
      if c = 'n' then
        match rest with
        | 'u' :: 'l' :: 'l' :: r => some (Json.null, r)
        | _ => none
      else if c = 't' then
        match rest with
        | 'r' :: 'u' :: 'e' :: r => some (Json.bool true, r)
        | _ => none
      else if c = 'f' then
        match rest with
        | 'a' :: 'l' :: 's' :: 'e' :: r => some (Json.bool false, r)
        | _ => none
      else if c = '"' then
        match parseStrAux rest with
        | some (s, r) => some (Json.str s, r)
        | none => none
      else if c = '[' then
        match skipWs rest with
        | ']' :: r => some (Json.arr [], r)
        | r2 =>
          match parseElems fuel r2 with
          | some (xs, r) => some (Json.arr xs, r)
          | none => none
      else if c = lbraceChar then
        match skipWs rest with
        | d :: r2 =>
          if d = rbraceChar then some (Json.obj [], r2)
          else
            match parseFields fuel (d :: r2) with
            | some (fs, r) => some (Json.obj fs, r)
            | none => none
        | [] => none
      else if c = '-' then
        match parseNat rest with
        | some (n, r) => some (Json.num (-(n : Int)), r)
        | none => none
      else if c.isDigit then
        match parseNat (c :: rest) with
        | some (n, r) => some (Json.num (n : Int), r)
        | none => none
      else none

/-- Parse the comma-separated elements of a nonempty JSON array, consuming
the closing bracket. -/
def parseElems : Nat → List Char → Option (List Json × List Char)
  | 0, _ => none
  | Nat.succ fuel, cs =>
    match parseValue fuel cs with
    | none => none
    | some (v, r) =>
      match skipWs r with
      | ',' :: r2 =>
        match parseElems fuel r2 with
        | some (vs, r3) => some (v :: vs, r3)
        | none => none
      | ']' :: r2 => some ([v], r2)
      | _ => none

/-- Parse the comma-separated fields of a nonempty JSON object, consuming
the closing brace. -/
def parseFields : Nat → List Char → Option (List (String × Json) × List Char)
  | 0, _ => none
  | Nat.succ fuel, cs =>
    match skipWs cs with
    | '"' :: r =>
      match parseStrAux r with
      | none => none
      | some (k, r2) =>
        match skipWs r2 with
        | ':' :: r3 =>
          match parseValue fuel r3 with
          | none => none
          | some (v, r4) =>
            match skipWs r4 with
            | ',' :: r5 =>
              match parseFields fuel r5 with
              | some (fs, r6) => some ((k, v) :: fs, r6)
              | none => none
            | d :: r5 => if d = rbraceChar then some ([(k, v)], r5) else none
            | [] => none
        | _ => none
    | _ => none

end

/-- Model of `JSON.parse` on a whole document: parses one value and requires
only whitespace to remain.  `none` models a thrown `SyntaxError`. -/
def jsonParse (text : String) : Option Json :=
  match parseValue (2 * text.length + 2) text.toList with
  | some (v, rest) => if (skipWs rest).isEmpty then some v else none
  | none => none

/-- The module-level constant `TERMINATION_PAYLOAD = { payload: null, status:
"terminate" }` of src/essence-sse.ts line 3. -/
def TERMINATION_PAYLOAD : Json :=
  Json.obj [("payload", Json.null), ("status", Json.str "terminate")]

/-- The data envelope `{ payload: data, status: "running" }` assembled by
`EssenceSSEServer.pushData` (line 66). -/
def dataEnvelope (data : Json) : Json :=
  Json.obj [("payload", data), ("status", Json.str "running")]

/-- State of one `EssenceSSEServer` instance together with the
`TransformStream` duplex it owns.

* `eventTag` embeds the private field `eventTag`;
* `openFlag` embeds the private field `open` (renamed: `open` is a Lean
  keyword);
* `writerClosed` is true once `RESPONSE_STREAM_WRITER.close()` has
  succeeded, after which the writable side accepts no further chunks;
* `wire` lists the chunks enqueued to the duplex's readable side, in order,
  each given as the string passed to `ENCODER.encode`;
* `issued` lists every chunk passed to `RESPONSE_STREAM_WRITER.write`,
  in call order, whether or not the stream still accepted it;
* `writeErrors` counts `write` calls made after the writer was closed
  (each returns a rejected promise and enqueues nothing);
* `closeErrors` counts `close` calls made after the writer was closed
  (each returns a rejected promise);
* `streamId` identifies this instance's `RESPONSE_STREAM` duplex, so that
  the readable half handed to `NextResponse` can be named. -/
structure EmitterState where
  eventTag : String
  openFlag : Bool
  writerClosed : Bool
  wire : List String
  issued : List String
  writeErrors : Nat
  closeErrors : Nat
  streamId : Nat
deriving Repr, DecidableEq

/-- Constructor of `EssenceSSEServer` (lines 18-26): stores the tag, sets
`open = false`, and creates the fresh `TransformStream` with its writer.
The abort handler it registers on `request.signal` is modelled by `onAbort`
below. -/
def mkServer (eventTag : String) (streamId : Nat) : EmitterState :=
  { eventTag := eventTag
    openFlag := false
    writerClosed := false
    wire := []
    issued := []
    writeErrors := 0
    closeErrors := 0
    streamId := streamId }

/-- Semantics of `RESPONSE_STREAM_WRITER.write(chunk)`: on an open writable
side the chunk is enqueued to the readable side; on a closed one the call
returns a rejected promise and enqueues nothing.  Either way the chunk was
passed to the writer, which `issued` records. -/
def writerWrite (s : EmitterState) (chunk : String) : EmitterState :=
  if s.writerClosed then
    { s with issued := s.issued ++ [chunk], writeErrors := s.writeErrors + 1 }
  else
    { s with issued := s.issued ++ [chunk], wire := s.wire ++ [chunk] }

/-- Semantics of `RESPONSE_STREAM_WRITER.close()`: closes the writable side;
on an already-closed side the call returns a rejected promise instead. -/
def writerClose (s : EmitterState) : EmitterState :=
  if s.writerClosed then { s with closeErrors := s.closeErrors + 1 }
  else { s with writerClosed := true }

/-- The readable half of a duplex, as handed to a response body. -/
structure ReadableEnd where
  streamId : Nat
deriving Repr, DecidableEq

/-- The `NextResponse` value built by `openSSE`: a body (the readable half
of the instance's duplex) and the response headers, as the ordered list of
pairs passed to the constructor. -/
structure NextResponse where
  body : ReadableEnd
  headers : List (String × String)
deriving Repr, DecidableEq

/-- The header object literal of `openSSE` (lines 36-43), in source order. -/
def sseHeaders : List (String × String) :=
  [("Access-Control-Allow-Origin", "*"),
   ("Content-Type", "text/event-stream; charset=utf-8"),
   ("Connection", "keep-alive"),
   ("Cache-Control", "no-cache, no-transform"),
   ("X-Accel-Buffering", "no"),
   ("Content-Encoding", "none")]

/-- `EssenceSSEServer.openSSE` (lines 33-45): sets `open = true` and returns
a `NextResponse` whose body is `RESPONSE_STREAM.readable` and whose headers
are the six listed pairs. -/
def openSSE (s : EmitterState) : EmitterState × NextResponse :=
  ({ s with openFlag := true },
   { body := { streamId := s.streamId }, headers := sseHeaders })

/-- `EssenceSSEServer.closeSSE` (lines 50-57): sets `open = false`, writes
the tag chunk and the serialized `TERMINATION_PAYLOAD` chunk, then closes
the writer.  No field is consulted before doing so. -/
def closeSSE (s : EmitterState) : EmitterState :=
  let s0 := { s with openFlag := false }
  let s1 := writerWrite s0 ("event: " ++ s0.eventTag)
  let s2 := writerWrite s1 (jsonStringify TERMINATION_PAYLOAD)
  writerClose s2

/-- `EssenceSSEServer.pushData` (lines 64-70): serializes the data envelope
around `data` and writes the tag chunk followed by the envelope chunk. -/
def pushData (s : EmitterState) (data : Json) : EmitterState :=
  let payload := jsonStringify (dataEnvelope data)
  let s1 := writerWrite s ("event: " ++ s.eventTag)
  writerWrite s1 payload

/-- The abort handler registered by the constructor on `request.signal`
(lines 22-25): logs and invokes `closeSSE` on the same instance. -/
def onAbort (s : EmitterState) : EmitterState :=
  closeSSE s

/-- The two chunks a `pushData` call passes to the writer, as a function of
the tag and the value only. -/
def pushWrites (tag : String) (data : Json) : List String :=
  ["event: " ++ tag, jsonStringify (dataEnvelope data)]

/-- The two chunks a `closeSSE` call passes to the writer, as a function of
the tag only. -/
def closeWrites (tag : String) : List String :=
  ["event: " ++ tag, jsonStringify TERMINATION_PAYLOAD]

/-- The `closed` state of the spec's Emitter state machine, read off the
instance: the `open` flag is false and the duplex writer has been closed
(this is exactly the configuration `closeSSE` leaves behind, and is
disjoint from both `unopened`, where the writer is still open, and `open`,
where the flag is true). -/
def isClosedState (s : EmitterState) : Bool :=
  !s.openFlag && s.writerClosed

/-- One inbound server-sent event as the platform `EventSource` surfaces it:
the event name (`event:` field of the frame) and the data string. -/
structure SSEEvent where
  tag : String
  data : String
deriving Repr, DecidableEq

/-- State of one `EssenceSSEClient` subscription.

* `closed` is true once `source.close()` has run, after which the
  `EventSource` dispatches no further events to the listener;
* `callbacks` lists the arguments passed to the user callback
  `dataUpdated`, in order;
* `uncaughtErrors` counts listener invocations that ended in an uncaught
  exception (`JSON.parse` throwing on malformed data); the platform event
  dispatch reports such an exception and leaves the listener registered. -/
structure ClientState where
  closed : Bool
  callbacks : List Json
  uncaughtErrors : Nat
deriving Repr

/-- Client state right after the `EssenceSSEClient` constructor (lines
76-92) ran: `EventSource` opened, listener registered for the construction
tag, no callback yet. -/
def initialClient : ClientState :=
  { closed := false, callbacks := [], uncaughtErrors := 0 }

/-- Embeds the test `payload === TERMINATION_PAYLOAD` on line 85.
`TERMINATION_PAYLOAD` is an object, so `===` is reference equality, and
`payload` is the value `JSON.parse` just returned — a freshly allocated
value that cannot be the module-level constant object.  The comparison is
therefore false for every parsed value. -/
def strictEqTerminationRef (_parsed : Json) : Bool :=
  false

/-- The event listener registered by the `EssenceSSEClient` constructor for
its tag (lines 80-91), lifted to one inbound event: the platform dispatches
the event to the listener only if the subscription is still open and the
event's name equals the subscribed tag; the listener then parses the data
as JSON (an uncaught exception if malformed), closes the source if the
parsed value is reference-equal to `TERMINATION_PAYLOAD`, and otherwise
invokes `dataUpdated` with the parsed value. -/
def clientHandleEvent (tag : String) (s : ClientState) (ev : SSEEvent) : ClientState :=
  if s.closed then s
  else if ev.tag = tag then
    match jsonParse ev.data with
    | none => { s with uncaughtErrors := s.uncaughtErrors + 1 }
    | some payload =>
      if strictEqTerminationRef payload then { s with closed := true }
      else { s with callbacks := s.callbacks ++ [payload] }
  else s

/-- Deliver a sequence of inbound events to the client, in order. -/
def clientRun (tag : String) (events : List SSEEvent) (s : ClientState) : ClientState :=
  events.foldl (clientHandleEvent tag) s

theorem writerWrite_issued (s : EmitterState) (c : String) :
    (writerWrite s c).issued = s.issued ++ [c] := by
  unfold writerWrite; split <;> rfl

theorem writerWrite_eventTag (s : EmitterState) (c : String) :
    (writerWrite s c).eventTag = s.eventTag := by
  unfold writerWrite; split <;> rfl

theorem writerWrite_openFlag (s : EmitterState) (c : String) :
    (writerWrite s c).openFlag = s.openFlag := by
  unfold writerWrite; split <;> rfl

theorem writerWrite_writerClosed (s : EmitterState) (c : String) :
    (writerWrite s c).writerClosed = s.writerClosed := by
  unfold writerWrite; split <;> rfl

theorem writerWrite_wire_of_open (s : EmitterState) (c : String)
    (h : s.writerClosed = false) : (writerWrite s c).wire = s.wire ++ [c] := by
  unfold writerWrite; rw [h]; rfl

theorem writerClose_openFlag (s : EmitterState) :
    (writerClose s).openFlag = s.openFlag := by
  unfold writerClose; split <;> rfl

theorem writerClose_wire (s : EmitterState) :
    (writerClose s).wire = s.wire := by
  unfold writerClose; split <;> rfl

theorem writerClose_writerClosed (s : EmitterState) :
    (writerClose s).writerClosed = true := by
  unfold writerClose
  split
  · next h => simpa using h
  · rfl

theorem pushData_issued (s : EmitterState) (v : Json) :
    (pushData s v).issued = s.issued ++ pushWrites s.eventTag v := by
  cases hc : s.writerClosed <;>
    simp [pushData, writerWrite, pushWrites, hc]

theorem pushData_wire_of_open (s : EmitterState) (v : Json)
    (h : s.writerClosed = false) :
    (pushData s v).wire = s.wire ++ pushWrites s.eventTag v := by
  simp [pushData, writerWrite, pushWrites, h]

theorem pushData_openFlag (s : EmitterState) (v : Json) :
    (pushData s v).openFlag = s.openFlag := by
  cases hc : s.writerClosed <;> simp [pushData, writerWrite, hc]

theorem pushData_writerClosed (s : EmitterState) (v : Json) :
    (pushData s v).writerClosed = s.writerClosed := by
  cases hc : s.writerClosed <;> simp [pushData, writerWrite, hc]

theorem closeSSE_issued (s : EmitterState) :
    (closeSSE s).issued = s.issued ++ closeWrites s.eventTag := by
  cases hc : s.writerClosed <;>
    simp [closeSSE, writerWrite, writerClose, closeWrites, hc]

theorem closeSSE_wire_of_open (s : EmitterState)
    (h : s.writerClosed = false) :
    (closeSSE s).wire = s.wire ++ closeWrites s.eventTag := by
  simp [closeSSE, writerWrite, writerClose, closeWrites, h]

theorem closeSSE_closed (s : EmitterState) :
    isClosedState (closeSSE s) = true := by
  cases hc : s.writerClosed <;>
    simp [closeSSE, writerWrite, writerClose, isClosedState, hc]

/-- C5: for every value `v` and every instance state, `pushData v` passes
exactly two chunks to the duplex writer, in order: the string
`"event: " ++ tag` for the tag fixed at construction, then the JSON
serialization of the data envelope with payload `v` and status `"running"`;
and when the writer is still open those two chunks, in that order, are
exactly what reaches the wire. -/
theorem pushData_emits_two_chunks (s : EmitterState) (v : Json) :
    (pushData s v).issued
      = s.issued ++ ["event: " ++ s.eventTag, jsonStringify (dataEnvelope v)] ∧
    (s.writerClosed = false →
      (pushData s v).wire
        = s.wire ++ ["event: " ++ s.eventTag, jsonStringify (dataEnvelope v)]) :=
  ⟨pushData_issued s v, fun h => pushData_wire_of_open s v h⟩

/-- Witness for C5 at a concrete open instance and payload. -/
theorem pushData_emits_two_chunks_witness :
    (pushData (mkServer "progress" 0) (Json.num 10)).issued
      = (mkServer "progress" 0).issued
        ++ ["event: " ++ (mkServer "progress" 0).eventTag,
            jsonStringify (dataEnvelope (Json.num 10))] ∧
    ((mkServer "progress" 0).writerClosed = false →
      (pushData (mkServer "progress" 0) (Json.num 10)).wire
        = (mkServer "progress" 0).wire
          ++ ["event: " ++ (mkServer "progress" 0).eventTag,
              jsonStringify (dataEnvelope (Json.num 10))]) :=
  pushData_emits_two_chunks (mkServer "progress" 0) (Json.num 10)

/-- C10: no write operation consults the `open` flag or performs an
already-closed check: for every state `s`, every setting `b` of the `open`
flag and every setting `c` of the duplex-closed flag, the chunks that
`pushData v` and `closeSSE` pass to the writer are the same lists
`pushWrites`/`closeWrites`, functions of the construction tag and the
value alone. -/
theorem writes_unguarded_by_open_state (s : EmitterState) (b c : Bool) (v : Json) :
    (pushData { s with openFlag := b, writerClosed := c } v).issued
      = s.issued ++ pushWrites s.eventTag v ∧
    (closeSSE { s with openFlag := b, writerClosed := c }).issued
      = s.issued ++ closeWrites s.eventTag :=
  ⟨pushData_issued { s with openFlag := b, writerClosed := c } v,
   closeSSE_issued { s with openFlag := b, writerClosed := c }⟩

/-- C7: the termination envelope is the module-level constant
`{ payload: null, status: "terminate" }`, and the second chunk `closeSSE`
passes to the writer is its serialization — an expression in which the
state, hence the channel tag and any payload type, does not occur. -/
theorem termination_payload_constant :
    TERMINATION_PAYLOAD
      = Json.obj [("payload", Json.null), ("status", Json.str "terminate")] ∧
    ∀ s : EmitterState,
      (closeSSE s).issued
        = s.issued ++ ["event: " ++ s.eventTag, jsonStringify TERMINATION_PAYLOAD] :=
  ⟨rfl, fun s => closeSSE_issued s⟩

/-- C6: `openSSE` returns a response whose headers are exactly the six
listed pairs, in source order, and whose body is the readable half of this
instance's duplex. -/
theorem openSSE_response_exact (s : EmitterState) :
    (openSSE s).2.headers
      = [("Access-Control-Allow-Origin", "*"),
         ("Content-Type", "text/event-stream; charset=utf-8"),
         ("Connection", "keep-alive"),
         ("Cache-Control", "no-cache, no-transform"),
         ("X-Accel-Buffering", "no"),
         ("Content-Encoding", "none")] ∧
    (openSSE s).2.body = { streamId := s.streamId } :=
  ⟨rfl, rfl⟩

/-- C4: the abort handler registered at construction invokes the very same
`closeSSE` used for graceful shutdown; when it fires before any close has
happened (the duplex writer still open) exactly one termination frame —
the tag chunk then the termination-envelope chunk — is appended to the
wire, and the instance ends in the closed state. -/
theorem abort_closes_via_close_path (s : EmitterState) :
    onAbort s = closeSSE s ∧
    (s.writerClosed = false →
      (onAbort s).wire = s.wire ++ closeWrites s.eventTag ∧
      isClosedState (onAbort s) = true) :=
  ⟨rfl, fun h => ⟨closeSSE_wire_of_open s h, closeSSE_closed s⟩⟩

/-- Witness for C4: aborting a freshly constructed instance writes one
termination frame and leaves it closed. -/
theorem abort_closes_via_close_path_witness :
    onAbort (mkServer "progress" 0) = closeSSE (mkServer "progress" 0) ∧
    ((mkServer "progress" 0).writerClosed = false →
      (onAbort (mkServer "progress" 0)).wire
        = (mkServer "progress" 0).wire
          ++ closeWrites (mkServer "progress" 0).eventTag ∧
      isClosedState (onAbort (mkServer "progress" 0)) = true) :=
  abort_closes_via_close_path (mkServer "progress" 0)

/-- Counterexample to C3: after `closeSSE` a fresh instance is in the
closed state, but one further `openSSE` call sets the `open` flag back to
true — the very flag whose value distinguishes the spec's `open` state —
so the instance is no longer in the closed state. -/
theorem openSSE_leaves_closed_state :
    isClosedState (closeSSE (mkServer "progress" 0)) = true ∧
    isClosedState ((openSSE (closeSSE (mkServer "progress" 0))).1) = false := by
  constructor <;> rfl

/-- C3 as amended: once an instance is in the closed state, `pushData` and
`closeSSE` leave it in the closed state, and no operation — `openSSE`
included — reopens the duplex writer; `openSSE`, however, does set the
`open` flag back to true (see the counterexample), so the closed state is
terminal only for the operation set without `openSSE`. -/
theorem closed_terminal_under_push_and_close (s : EmitterState) (v : Json)
    (h : isClosedState s = true) :
    isClosedState (pushData s v) = true ∧
    isClosedState (closeSSE s) = true ∧
    ((openSSE s).1).writerClosed = true := by
  have h2 := h
  simp only [isClosedState, Bool.and_eq_true, Bool.not_eq_true'] at h2
  refine ⟨?_, closeSSE_closed s, ?_⟩
  · simp [isClosedState, pushData_openFlag, pushData_writerClosed, h2.1, h2.2]
  · simp [openSSE, h2.2]

/-- Witness for the amended C3 at a concrete closed instance. -/
theorem closed_terminal_under_push_and_close_witness :
    isClosedState (pushData (closeSSE (mkServer "progress" 1)) (Json.num 5)) = true ∧
    isClosedState (closeSSE (closeSSE (mkServer "progress" 1))) = true ∧
    ((openSSE (closeSSE (mkServer "progress" 1))).1).writerClosed = true :=
  closed_terminal_under_push_and_close (closeSSE (mkServer "progress" 1)) (Json.num 5) rfl

/-- Evaluation of the code at C2's failing input (two consecutive
`closeSSE` calls on a fresh instance): exactly one termination frame
reaches the wire, but the second invocation re-issues both chunk writes
against the already-closed writer (two rejected write promises) and
attempts a second physical close (one rejected close promise) — the
error condition the claim says the second invocation must not raise. -/
theorem double_close_second_invocation_errors :
    (closeSSE (closeSSE (mkServer "progress" 0))).wire = closeWrites "progress" ∧
    (closeSSE (closeSSE (mkServer "progress" 0))).issued
      = closeWrites "progress" ++ closeWrites "progress" ∧
    (closeSSE (closeSSE (mkServer "progress" 0))).writeErrors = 2 ∧
    (closeSSE (closeSSE (mkServer "progress" 0))).closeErrors = 1 :=
  ⟨rfl, rfl, rfl, rfl⟩

/-- Evaluation of the code at C1's failing input (tag `"progress"`, one
data frame then the termination frame): the listener's test
`payload === TERMINATION_PAYLOAD` compares a freshly parsed object with
the constant by reference and is false, so `dataUpdated` is invoked twice
— once for the data envelope and once for the termination envelope — and
`source.close()` is never reached, where the claim requires exactly one
invocation followed by closure of the subscription. -/
theorem termination_envelope_reaches_callback :
    clientRun "progress"
      [{ tag := "progress",
         data := jsonStringify (dataEnvelope (Json.obj [("percent", Json.num 10)])) },
       { tag := "progress", data := jsonStringify TERMINATION_PAYLOAD }]
      initialClient
      = { closed := false,
          callbacks := [dataEnvelope (Json.obj [("percent", Json.num 10)]),
                        TERMINATION_PAYLOAD],
          uncaughtErrors := 0 } :=
  rfl

/-- C8: for an inbound message on the subscribed tag whose body is not
valid JSON, delivered between two valid frames, the malformed message
produces no `dataUpdated` invocation and surfaces as one uncaught
exception reported by the platform event dispatch; the listener stays
registered, the subscription stays open, and both valid frames still
produce their callbacks, in order. -/
theorem malformed_frame_skipped (tag d1 bad d2 : String) (p1 p2 : Json)
    (h1 : jsonParse d1 = some p1) (hb : jsonParse bad = none)
    (h2 : jsonParse d2 = some p2) :
    clientRun tag
      [{ tag := tag, data := d1 }, { tag := tag, data := bad },
       { tag := tag, data := d2 }]
      initialClient
      = { closed := false, callbacks := [p1, p2], uncaughtErrors := 1 } := by
  simp [clientRun, clientHandleEvent, initialClient, strictEqTerminationRef,
        h1, hb, h2]

/-- Witness for C8 at tag "progress" with concrete frames: a valid frame,
malformed bytes, then another valid frame. -/
theorem malformed_frame_skipped_witness :
    clientRun "progress"
      [{ tag := "progress", data := "\x7b\"percent\":10\x7d" },
       { tag := "progress", data := "oops" },
       { tag := "progress", data := "\x7b\"percent\":50\x7d" }]
      initialClient
      = { closed := false,
          callbacks := [Json.obj [("percent", Json.num 10)],
                        Json.obj [("percent", Json.num 50)]],
          uncaughtErrors := 1 } :=
  malformed_frame_skipped "progress" "\x7b\"percent\":10\x7d" "oops"
    "\x7b\"percent\":50\x7d" (Json.obj [("percent", Json.num 10)])
    (Json.obj [("percent", Json.num 50)]) rfl rfl rfl

/-- C9: channel tag isolation — the listener is registered only for the
tag fixed at construction, so an event carrying any other tag leaves the
client state untouched: no callback, no close, no error. -/
theorem tag_isolation (tag : String) (s : ClientState) (ev : SSEEvent)
    (h : ev.tag ≠ tag) : clientHandleEvent tag s ev = s := by
  simp [clientHandleEvent, h]

/-- Witness for C9: a client subscribed to tag "A" ignores a frame framed
with tag "B". -/
theorem tag_isolation_witness :
    clientHandleEvent "A" initialClient { tag := "B", data := "null" }
      = initialClient :=
  tag_isolation "A" initialClient { tag := "B", data := "null" } (by decide)
